import Mathlib

/-!
Shallow embedding of `mmworkbench/models/helpers.py` (registry and utility
helpers for the models package) together with proofs of its specified
behaviour.

Modelling conventions:
* Python dicts are association lists `List (String × V)` with first-match
  lookup (`dlookup`) and replace-or-append update (`assocSet`), which agree
  with dict semantics on duplicate-free lists and are used only through
  those two operations.
* Python strings are Lean `String`s; `str.isdigit` is modelled over ASCII
  decimal digits (`Char.isDigit`).
* Functions that raise `ValueError` return `Except String`; the error value
  carries the formatted message.  Raising before any registry write models
  "the registry is unchanged": the caller keeps the old registry value.
* `float` division on the small exact integer counts used here is modelled
  by rational division (`ℚ`).
-/

/-- Python single-quote character, used by `repr` of a simple string. -/
def pyQuote : Char := Char.ofNat 39

/-- Python `repr` of a plain string: the string wrapped in single quotes
(the `{!r}` format used by the error messages of `helpers.py`). -/
def pyRepr (s : String) : String :=
  String.mk (pyQuote :: (s.data ++ [pyQuote]))

/-- First-match lookup in an association list: Python `d[k]` / `k in d`. -/
def dlookup {β : Type _} (k : String) : List (String × β) → Option β
  | [] => none
  | (k', v) :: t => if k' = k then some v else dlookup k t

/-- Replace the first binding of `k` (or append one): Python `d[k] = v`. -/
def assocSet {β : Type _} (k : String) (v : β) : List (String × β) → List (String × β)
  | [] => [(k, v)]
  | (k', v') :: t => if k' = k then (k, v) :: t else (k', v') :: assocSet k v t

/-- Python `range(a, b)` over integers: `a, a+1, ..., b-1` (empty when `b ≤ a`). -/
def pyRange (a b : Int) : List Int :=
  (List.range (b - a).toNat).map (fun (i : Nat) => a + (i : Int))

/-- A registry (`MODEL_MAP` / `FEATURE_MAP` / `LABEL_MAP`): a dict from
string keys to registered classes/callables, passed explicitly. -/
abbrev Registry (V : Type _) := List (String × V)

/-- `OUT_OF_BOUNDS_TOKEN` from `helpers.py`. -/
def OUT_OF_BOUNDS_TOKEN : String := "<$>"

/-- A model configuration as seen by this module: only the `model_type`
attribute is consulted. -/
structure ModelConfig where
  model_type : String
deriving DecidableEq

/-- `create_model(config)`: look up `config.model_type` in the model
registry and invoke the registered class on `config`; on a missing key the
`KeyError` is converted to a `ValueError` with the formatted message. -/
def create_model {M : Type _} (MODEL_MAP : Registry (ModelConfig → M))
    (config : ModelConfig) : Except String M :=
  match dlookup config.model_type MODEL_MAP with
  | some m_cls => Except.ok (m_cls config)
  | none => Except.error
      ("Invalid model configuration: Unknown model type " ++ pyRepr config.model_type)

/-- `register_model(model_type, model_class)`: insert-once guard on the
model registry. -/
def register_model {V : Type _} (model_type : String) (m_cls : V)
    (MODEL_MAP : Registry V) : Except String (Registry V) :=
  if (dlookup model_type MODEL_MAP).isSome then
    Except.error ("Model " ++ pyRepr model_type ++ " is already registered.")
  else
    Except.ok (MODEL_MAP ++ [(model_type, m_cls)])

/-- `register_features(example_type, features)`: insert-once guard on the
feature registry. -/
def register_features {V : Type _} (example_type : String) (features : V)
    (FEATURE_MAP : Registry V) : Except String (Registry V) :=
  if (dlookup example_type FEATURE_MAP).isSome then
    Except.error ("Features for example type " ++ pyRepr example_type
      ++ " are already registered.")
  else
    Except.ok (FEATURE_MAP ++ [(example_type, features)])

/-- `register_label(label_type, label_encoder)`: insert-once guard on the
label registry. -/
def register_label {V : Type _} (label_type : String) (label_encoder : V)
    (LABEL_MAP : Registry V) : Except String (Registry V) :=
  if (dlookup label_type LABEL_MAP).isSome then
    Except.error ("Label encoder for label type " ++ pyRepr label_type
      ++ " is already registered.")
  else
    Except.ok (LABEL_MAP ++ [(label_type, label_encoder)])

/-- Python `str.isdigit`: true on a non-empty string all of whose
characters are decimal digits. -/
def pyIsdigit (s : String) : Bool :=
  !s.data.isEmpty && s.data.all Char.isDigit

/-- `mask_numerics(token)`: all-digit tokens collapse to `#NUM`, otherwise
every digit character is rewritten to `8` (`re.sub` over `\d`). -/
def mask_numerics (token : String) : String :=
  if pyIsdigit token then "#NUM"
  else String.mk (token.data.map (fun c => if c.isDigit then '8' else c))

/-- `get_ngram(tokens, start, length)`: space-joined window of `length`
positions starting at `start`, substituting `OUT_OF_BOUNDS_TOKEN` for
positions outside the token list. -/
def get_ngram (tokens : List String) (start length : Int) : String :=
  let ngram_tokens := (pyRange start (start + length)).map (fun index =>
    if index < 0 ∨ (tokens.length : Int) ≤ index then OUT_OF_BOUNDS_TOKEN
    else tokens.getD index.toNat "")
  String.intercalate " " ngram_tokens

/-- `sequence_accuracy_scoring(y_true, y_pred)`: fraction of positions at
which the whole true sequence equals the whole predicted sequence; `0` on
an empty `y_true`. Pairing is by `zip`, the denominator is `len(y_true)`. -/
def sequence_accuracy_scoring (y_true y_pred : List (List String)) : ℚ :=
  let total := y_true.length
  if total = 0 then 0
  else
    let n_matches := (y_true.zip y_pred).countP (fun p => p.1 == p.2)
    (n_matches : ℚ) / (total : ℚ)

/-- `sequence_tag_accuracy_scoring(y_true, y_pred)`: flatten both inputs
and score tag-by-tag; `0` when the flattened truth is empty. -/
def sequence_tag_accuracy_scoring (y_true y_pred : List (List String)) : ℚ :=
  let y_true_flat := y_true.flatten
  let y_pred_flat := y_pred.flatten
  let total := y_true_flat.length
  if total = 0 then 0
  else
    let n_matches := (y_true_flat.zip y_pred_flat).countP (fun p => p.1 == p.2)
    (n_matches : ℚ) / (total : ℚ)

/-- An entity span (start/end character offsets), compared as a whole. -/
structure Span where
  start : Int
  stop : Int
deriving DecidableEq

/-- The inner `core.Entity` value: only its `type` attribute is compared
by this module. -/
structure CoreEntity where
  type : String
deriving DecidableEq

/-- A query entity annotation as compared by `entity_seqs_equal`: its
entity `type`, its `span` and its `text`. -/
structure QueryEntity where
  entity : CoreEntity
  span : Span
  text : String
deriving DecidableEq

/-- `entity_seqs_equal(expected, predicted)`: false on a length mismatch,
otherwise every aligned pair must agree on type, span and text (the
source's early-return loop is the short-circuiting `all`). -/
def entity_seqs_equal (expected predicted : List QueryEntity) : Bool :=
  if expected.length ≠ predicted.length then false
  else (expected.zip predicted).all (fun p =>
    p.1.entity.type == p.2.entity.type &&
    p.1.span == p.2.span &&
    p.1.text == p.2.text)

/-- The per-entity gazetteer payload: at least a `total_entities` count and
per-key frequency data. -/
structure GazData where
  total_entities : Int
  freqs : List (String × Int)
deriving DecidableEq

/-- Modelled from the spec: the external `Gazetteer` class (module
`mmworkbench.gazetteer`, not part of the sources here).  Per the spec it
provides `from_dict`/`to_dict` serialization of the per-entity payload and
an internal per-key update operation. -/
structure Gazetteer where
  name : String
  data : GazData
deriving DecidableEq

/-- Modelled from the spec: `Gazetteer(entity)` builds an empty gazetteer
for the given entity type. -/
def Gazetteer.new (name : String) : Gazetteer :=
  { name := name, data := { total_entities := 0, freqs := [] } }

/-- Modelled from the spec: `from_dict` loads a serialized payload. -/
def Gazetteer.from_dict (g : Gazetteer) (d : GazData) : Gazetteer :=
  { g with data := d }

/-- Modelled from the spec: `to_dict` serializes the payload back;
`to_dict` inverts `from_dict`. -/
def Gazetteer.to_dict (g : Gazetteer) : GazData :=
  g.data

/-- Modelled from the spec: `_update_entity(key, value)` merges one
dynamic per-key count into the gazetteer's frequency data. -/
def Gazetteer.update_entity (g : Gazetteer) (key : String) (value : Int) : Gazetteer :=
  { g with data := { g.data with freqs := assocSet key value g.data.freqs } }

/-- One iteration of the ingestion loop of `ingest_dynamic_gazetteer`:
`ed` is one `(entity, per-key dynamic counts)` item of the dynamic
gazetteer section. -/
def ingest_step (workspace_resource : List (String × GazData))
    (ed : String × List (String × Int)) : List (String × GazData) :=
  match dlookup ed.1 workspace_resource with
  | none => workspace_resource
  | some gd =>
    let new_gaz := (Gazetteer.new ed.1).from_dict gd
    let new_gaz :=
      if gd.total_entities > 0 then
        ed.2.foldl (fun g kv => g.update_entity kv.1 kv.2) new_gaz
      else new_gaz
    assocSet ed.1 new_gaz.to_dict workspace_resource

/-- `ingest_dynamic_gazetteer(resource, dynamic_resource)`.  The resource
is modelled by its `gazetteers` section (a dict from entity type to
payload); `dynamic_resource` is `some dyn` exactly when the Python value
is truthy and contains the `gazetteers` key, `dyn` being that section.
`copy.deepcopy` is the identity at the level of values. -/
def ingest_dynamic_gazetteer (resource : List (String × GazData))
    (dynamic_resource : Option (List (String × List (String × Int)))) :
    List (String × GazData) :=
  match dynamic_resource with
  | none => resource
  | some dyn => dyn.foldl ingest_step resource

/-- A feature-extractor function object: an identity tag plus the optional
`requirements` attribute stored in its `__dict__`. -/
structure FeatureFunc where
  fid : Nat
  requirements : Option (Finset String)
deriving DecidableEq

/-- `requires(resource)` applied to a function object: fetch the
`requirements` set (empty when absent), add `resource`, store it back. -/
def requires (resource : String) : FeatureFunc → FeatureFunc :=
  fun func =>
    let req := func.requirements.getD ∅
    { func with requirements := some (insert resource req) }

/-- C10: `mask_numerics("")` returns the empty string, not `#NUM`: although
the empty token vacuously consists of digit characters only (`all` is true on
it), Python's `isdigit` is false on it, so the replacement branch runs. -/
theorem mask_numerics_empty_C10 :
    mask_numerics "" = "" ∧ "".data.all Char.isDigit = true :=
  ⟨rfl, rfl⟩

/-- C7: `ingest_dynamic_gazetteer(resource, None)` returns a value equal to
the original resource, and the original is never mutated: the embedding passes
state explicitly, the function only reads `resource`, and `copy.deepcopy`
is the identity at the level of values (the Python-level object-identity
distinction has no observable counterpart here). -/
theorem ingest_dynamic_gazetteer_none_C7 :
    ∀ resource : List (String × GazData),
      ingest_dynamic_gazetteer resource none = resource :=
  fun _ => rfl

/-- C5: `mask_numerics` returns the literal `#NUM` on a token that consists
entirely of digit characters, and otherwise returns the token with every
digit replaced by `8` and every non-digit unchanged (stated positionally);
`mask_numerics("123") = "#NUM"`, `mask_numerics("a1b2") = "a8b8"`,
`mask_numerics("abc") = "abc"`. -/
theorem mask_numerics_spec_C5 :
    (∀ token : String,
      (token.data ≠ [] → token.data.all Char.isDigit = true →
        mask_numerics token = "#NUM") ∧
      (token.data.all Char.isDigit = false →
        (mask_numerics token).data.length = token.data.length ∧
        ∀ i (hi : i < token.data.length) (hm : i < (mask_numerics token).data.length),
          (mask_numerics token).data.get ⟨i, hm⟩ =
            if (token.data.get ⟨i, hi⟩).isDigit then '8' else token.data.get ⟨i, hi⟩))
    ∧ mask_numerics "123" = "#NUM" ∧ mask_numerics "a1b2" = "a8b8"
    ∧ mask_numerics "abc" = "abc" := by
  refine ⟨?_, by decide, by decide, by decide⟩
  intro token
  constructor
  · intro hne hall
    have : pyIsdigit token = true := by
      simp [pyIsdigit, hall, List.isEmpty_iff, hne]
    simp [mask_numerics, this]
  · intro hall
    have hpy : pyIsdigit token = false := by
      simp [pyIsdigit, hall]
    constructor
    · simp [mask_numerics, hpy]
    · intro i hi hm
      simp [mask_numerics, hpy, List.getElem_map]

/-- C4: `get_ngram(tokens, start, length)` is the space-joined string of the
tokens at indices `start .. start+length-1`, where every index outside
`[0, len(tokens))` yields the sentinel `<$>` (an out-of-range index is one
that is negative or on which `get?` misses) and no index ever raises;
`get_ngram(["a","b","c"], -1, 2) = "<$> a"` and
`get_ngram(["a","b","c"], 2, 2) = "c <$>"`. -/
theorem get_ngram_spec_C4 :
    (∀ (tokens : List String) (start length : Int),
      get_ngram tokens start length =
        String.intercalate " " ((List.range length.toNat).map (fun (i : Nat) =>
          (if 0 ≤ start + (i : Int) then tokens.get? (start + (i : Int)).toNat
           else none).getD OUT_OF_BOUNDS_TOKEN)))
    ∧ get_ngram ["a", "b", "c"] (-1) 2 = "<$> a"
    ∧ get_ngram ["a", "b", "c"] 2 2 = "c <$>" := by
  refine ⟨?_, by decide, by decide⟩
  intro tokens start length
  unfold get_ngram pyRange
  have h1 : start + length - start = length := by ring
  rw [h1, List.map_map]
  dsimp only
  refine congrArg (String.intercalate " ") ?_
  apply List.map_congr_left
  intro i _
  simp only [Function.comp]
  by_cases h0 : start + (i : Int) < 0
  · have hnot : ¬ 0 ≤ start + (i : Int) := by omega
    simp [h0, hnot, OUT_OF_BOUNDS_TOKEN]
  · have h0' : 0 ≤ start + (i : Int) := by omega
    by_cases hlen : (tokens.length : Int) ≤ start + (i : Int)
    · have hge : tokens.length ≤ (start + (i : Int)).toNat := by omega
      simp [h0, hlen, h0', List.getElem?_eq_none hge]
    · have hlt : (start + (i : Int)).toNat < tokens.length := by omega
      simp [h0, hlen, h0', List.getD_eq_getElem?_getD, List.get?_eq_getElem?,
        List.getElem?_eq_getElem hlt]

theorem countP_zip_eq_countP_range (a b : List (List String)) :
    (a.zip b).countP (fun p => p.1 == p.2) =
    (List.range (min a.length b.length)).countP (fun i => a[i]? == b[i]?) := by
  induction a generalizing b with
  | nil => simp
  | cons x xs ih =>
    cases b with
    | nil => simp
    | cons y ys =>
      rw [List.zip_cons_cons, List.countP_cons]
      have hmin : min (x :: xs).length (y :: ys).length = min xs.length ys.length + 1 := by
        simp [Nat.succ_min_succ]
      rw [hmin, List.range_succ_eq_map, List.countP_cons, List.countP_map]
      simp only [List.getElem?_cons_succ, List.getElem?_cons_zero, Function.comp_def]
      rw [ih ys]
      congr 1

/-- C1: `sequence_accuracy_scoring(y_true, y_pred)` equals the number of
positions `i < min(len(y_true), len(y_pred))` at which `y_true[i]` equals
`y_pred[i]` as whole sequences, divided by `len(y_true)`; pairing stops at
the shorter list while the true length is the denominator, and on an empty
`y_true` the result is `0`. -/
theorem sequence_accuracy_scoring_spec_C1 :
    (∀ y_true y_pred : List (List String),
      sequence_accuracy_scoring y_true y_pred =
        if y_true.length = 0 then 0
        else (((List.range (min y_true.length y_pred.length)).countP
            (fun i => y_true[i]? == y_pred[i]?) : ℚ) / (y_true.length : ℚ)))
    ∧ sequence_accuracy_scoring [] [] = 0 := by
  refine ⟨?_, rfl⟩
  intro y_true y_pred
  unfold sequence_accuracy_scoring
  dsimp only
  by_cases h : y_true.length = 0
  · simp [h]
  · simp only [h, if_false]
    rw [countP_zip_eq_countP_range]

theorem dlookup_append_of_none {β : Type _} (k : String) (m l : List (String × β))
    (h : dlookup k m = none) : dlookup k (m ++ l) = dlookup k l := by
  induction m with
  | nil => rfl
  | cons a t ih =>
    obtain ⟨k', v⟩ := a
    by_cases hk : k' = k
    · simp [dlookup, hk] at h
    · simp only [List.cons_append, dlookup, hk, if_false] at h ⊢
      exact ih h

/-- C2: for each of `register_model`, `register_features` and
`register_label`, a call with a key already present in the registry raises a
`ValueError` (returning no new registry, so the registry the caller holds is
unchanged), and a call with a fresh key inserts the given class under it;
after a successful registration a second call on the same key fails while
the first registration still answers lookups. -/
theorem register_spec_C2 : ∀ (V : Type) (k : String) (v w : V) (m : Registry V),
    ((dlookup k m).isSome = true →
      (∃ e, register_model k v m = Except.error e) ∧
      (∃ e, register_features k v m = Except.error e) ∧
      (∃ e, register_label k v m = Except.error e)) ∧
    (dlookup k m = none →
      register_model k v m = Except.ok (m ++ [(k, v)]) ∧
      register_features k v m = Except.ok (m ++ [(k, v)]) ∧
      register_label k v m = Except.ok (m ++ [(k, v)]) ∧
      dlookup k (m ++ [(k, v)]) = some v ∧
      (∃ e, register_model k w (m ++ [(k, v)]) = Except.error e) ∧
      (∃ e, register_features k w (m ++ [(k, v)]) = Except.error e) ∧
      (∃ e, register_label k w (m ++ [(k, v)]) = Except.error e)) := by
  intro V k v w m
  constructor
  · intro h
    have e1 : ∃ e, register_model k v m = Except.error e := by
      unfold register_model
      rw [if_pos h]
      exact ⟨_, rfl⟩
    have e2 : ∃ e, register_features k v m = Except.error e := by
      unfold register_features
      rw [if_pos h]
      exact ⟨_, rfl⟩
    have e3 : ∃ e, register_label k v m = Except.error e := by
      unfold register_label
      rw [if_pos h]
      exact ⟨_, rfl⟩
    exact ⟨e1, e2, e3⟩
  · intro h
    have h1 : ¬ (dlookup k m).isSome = true := by simp [h]
    have h2 : dlookup k (m ++ [(k, v)]) = some v := by
      rw [dlookup_append_of_none k m _ h]
      simp [dlookup]
    have h3 : (dlookup k (m ++ [(k, v)])).isSome = true := by simp [h2]
    have e1 : ∃ e, register_model k w (m ++ [(k, v)]) = Except.error e := by
      unfold register_model
      rw [if_pos h3]
      exact ⟨_, rfl⟩
    have e2 : ∃ e, register_features k w (m ++ [(k, v)]) = Except.error e := by
      unfold register_features
      rw [if_pos h3]
      exact ⟨_, rfl⟩
    have e3 : ∃ e, register_label k w (m ++ [(k, v)]) = Except.error e := by
      unfold register_label
      rw [if_pos h3]
      exact ⟨_, rfl⟩
    refine ⟨?_, ?_, ?_, h2, e1, e2, e3⟩
    · unfold register_model
      rw [if_neg h1]
    · unfold register_features
      rw [if_neg h1]
    · unfold register_label
      rw [if_neg h1]

theorem string_data_append (s t : String) : (s ++ t).data = s.data ++ t.data := rfl

/-- C3: `create_model(config)` raises a `ValueError` naming
`config.model_type` (the name occurs in the message) exactly when
`config.model_type` is absent from the model registry, and otherwise returns
the registered class invoked with `config`. -/
theorem create_model_spec_C3 : ∀ (M : Type) (MODEL_MAP : Registry (ModelConfig → M))
    (config : ModelConfig),
    ((∃ e, create_model MODEL_MAP config = Except.error e) ↔
        dlookup config.model_type MODEL_MAP = none) ∧
    (∀ e, create_model MODEL_MAP config = Except.error e →
        ∃ s t, e.data = s ++ config.model_type.data ++ t) ∧
    (∀ f, dlookup config.model_type MODEL_MAP = some f →
        create_model MODEL_MAP config = Except.ok (f config)) := by
  intro M MODEL_MAP config
  refine ⟨⟨?_, ?_⟩, ?_, ?_⟩
  · rintro ⟨e, he⟩
    cases hd : dlookup config.model_type MODEL_MAP with
    | none => rfl
    | some f =>
      unfold create_model at he
      rw [hd] at he
      exact absurd he (by simp)
  · intro hd
    unfold create_model
    rw [hd]
    exact ⟨_, rfl⟩
  · intro e he
    cases hd : dlookup config.model_type MODEL_MAP with
    | some f =>
      unfold create_model at he
      rw [hd] at he
      exact absurd he (by simp)
    | none =>
      unfold create_model at he
      rw [hd] at he
      have he' : e = "Invalid model configuration: Unknown model type "
          ++ pyRepr config.model_type := by
        exact (Except.error.injEq _ _).mp he.symm
      refine ⟨("Invalid model configuration: Unknown model type ").data ++ [pyQuote],
        [pyQuote], ?_⟩
      rw [he', string_data_append]
      simp [pyRepr]
  · intro f hf
    unfold create_model
    rw [hf]

/-- C6: `entity_seqs_equal(expected, predicted)` is true exactly when the two
lists have equal length and every positionally aligned pair agrees on entity
type, span and text; in particular it is false on a length mismatch and false
when any aligned pair differs in any of the three components. -/
theorem entity_seqs_equal_spec_C6 : ∀ e p : List QueryEntity,
    entity_seqs_equal e p = true ↔
      (e.length = p.length ∧ ∀ i (hi : i < e.length) (hp : i < p.length),
        (e.get ⟨i, hi⟩).entity.type = (p.get ⟨i, hp⟩).entity.type ∧
        (e.get ⟨i, hi⟩).span = (p.get ⟨i, hp⟩).span ∧
        (e.get ⟨i, hi⟩).text = (p.get ⟨i, hp⟩).text) := by
  intro e p
  unfold entity_seqs_equal
  by_cases hlen : e.length = p.length
  · have hcond : ¬ (e.length ≠ p.length) := by simpa using hlen
    rw [if_neg hcond, List.all_eq_true]
    constructor
    · intro h
      refine ⟨hlen, ?_⟩
      intro i hi hp
      have hz : i < (e.zip p).length := by
        rw [List.length_zip]
        omega
      have hmem : (e.zip p)[i] ∈ e.zip p := List.getElem_mem hz
      have hq := h _ hmem
      rw [List.getElem_zip] at hq
      simp only [Bool.and_eq_true, beq_iff_eq] at hq
      simp only [List.get_eq_getElem]
      exact ⟨hq.1.1, hq.1.2, hq.2⟩
    · rintro ⟨-, hall⟩
      intro pair hmem
      obtain ⟨i, hz, hpair⟩ := List.getElem_of_mem hmem
      rw [← hpair, List.getElem_zip]
      have hi : i < e.length := by
        rw [List.length_zip] at hz
        omega
      have hp : i < p.length := by
        rw [List.length_zip] at hz
        omega
      have hq := hall i hi hp
      simp only [List.get_eq_getElem] at hq
      simp only [Bool.and_eq_true, beq_iff_eq]
      exact ⟨⟨hq.1, hq.2.1⟩, hq.2.2⟩
  · rw [if_pos hlen]
    constructor
    · intro h
      exact absurd h (by simp)
    · rintro ⟨hl, -⟩
      exact absurd hl hlen

theorem dlookup_assocSet_self {β : Type _} (k : String) (v : β) (l : List (String × β)) :
    dlookup k (assocSet k v l) = some v := by
  induction l with
  | nil => simp [assocSet, dlookup]
  | cons a t ih =>
    obtain ⟨k', v'⟩ := a
    by_cases hk : k' = k
    · simp [assocSet, hk, dlookup]
    · simp [assocSet, hk, dlookup, ih]

theorem dlookup_assocSet_ne {β : Type _} {k k' : String} (h : k ≠ k') (v : β)
    (l : List (String × β)) : dlookup k (assocSet k' v l) = dlookup k l := by
  have h' : k' ≠ k := Ne.symm h
  induction l with
  | nil => simp [assocSet, dlookup, h']
  | cons a t ih =>
    obtain ⟨a1, a2⟩ := a
    by_cases hk : a1 = k'
    · subst hk
      simp [assocSet, dlookup, h']
    · simp [assocSet, hk, dlookup, ih]

theorem ingest_step_none {e : String} {ws : List (String × GazData)}
    (h : dlookup e ws = none) (ed : String × List (String × Int)) :
    dlookup e (ingest_step ws ed) = none := by
  unfold ingest_step
  cases hd : dlookup ed.1 ws with
  | none => exact h
  | some gd =>
    have hne : e ≠ ed.1 := by
      intro hq
      rw [hq, hd] at h
      exact absurd h (by simp)
    dsimp only
    rw [dlookup_assocSet_ne hne]
    exact h

theorem ingest_step_nonpos {e : String} {gd : GazData} {ws : List (String × GazData)}
    (h : dlookup e ws = some gd) (hle : gd.total_entities ≤ 0)
    (ed : String × List (String × Int)) :
    dlookup e (ingest_step ws ed) = some gd := by
  unfold ingest_step
  by_cases he : e = ed.1
  · rw [← he, h]
    dsimp only
    rw [if_neg (by omega)]
    exact dlookup_assocSet_self e _ ws
  · cases hd : dlookup ed.1 ws with
    | none => exact h
    | some gd' =>
      dsimp only
      rw [dlookup_assocSet_ne he]
      exact h

theorem ingest_foldl_none {e : String} (dyn : List (String × List (String × Int)))
    (ws : List (String × GazData)) (h : dlookup e ws = none) :
    dlookup e (dyn.foldl ingest_step ws) = none := by
  induction dyn generalizing ws with
  | nil => exact h
  | cons ed t ih =>
    rw [List.foldl_cons]
    exact ih _ (ingest_step_none h ed)

theorem ingest_foldl_nonpos {e : String} {gd : GazData}
    (dyn : List (String × List (String × Int))) (ws : List (String × GazData))
    (h : dlookup e ws = some gd) (hle : gd.total_entities ≤ 0) :
    dlookup e (dyn.foldl ingest_step ws) = some gd := by
  induction dyn generalizing ws with
  | nil => exact h
  | cons ed t ih =>
    rw [List.foldl_cons]
    exact ih _ (ingest_step_nonpos h hle ed)

/-- C8: in the copy returned by `ingest_dynamic_gazetteer`, an entity type
listed in the dynamic gazetteer section that is absent from the base
resource is not added, and one whose base entry has a non-positive
`total_entities` count keeps an entry equal to the original one: such
entities are skipped, not merged. -/
theorem ingest_dynamic_gazetteer_skips_C8 :
    ∀ (resource : List (String × GazData)) (dyn : List (String × List (String × Int)))
      (e : String),
    (dlookup e resource = none →
      dlookup e (ingest_dynamic_gazetteer resource (some dyn)) = none) ∧
    (∀ gd : GazData, dlookup e resource = some gd → gd.total_entities ≤ 0 →
      dlookup e (ingest_dynamic_gazetteer resource (some dyn)) = some gd) := by
  intro resource dyn e
  constructor
  · intro h
    exact ingest_foldl_none dyn resource h
  · intro gd h hle
    exact ingest_foldl_nonpos dyn resource h hle

/-- C9: applying `requires(a)` and then `requires(b)` to a function object
whose requirement set is not yet present yields the requirement set
`{a, b}`, the set being created empty on first use, and the result of
stacking the two decorators is the same in either order. -/
theorem requires_spec_C9 : ∀ (f : FeatureFunc) (a b : String),
    (f.requirements = none →
      (requires a f).requirements = some {a} ∧
      (requires b (requires a f)).requirements = some ({a, b} : Finset String)) ∧
    requires b (requires a f) = requires a (requires b f) := by
  intro f a b
  constructor
  · intro h
    constructor
    · simp [requires, h]
    · simp [requires, h]
      exact Finset.pair_comm b a
  · cases hr : f.requirements with
    | none =>
      simp [requires, hr]
      exact Finset.pair_comm b a
    | some s =>
      simp [requires, hr]
      exact Finset.Insert.comm b a s

theorem register_spec_C2_witness :
    (∃ e, register_model "svm" (1 : Nat) [("svm", 0)] = Except.error e) ∧
    register_model "svm" (1 : Nat) [] = Except.ok ([] ++ [("svm", 1)]) ∧
    dlookup "svm" ([] ++ [("svm", (1 : Nat))]) = some 1 := by
  refine ⟨((register_spec_C2 Nat "svm" 1 2 [("svm", 0)]).1 (by decide)).1, ?_, ?_⟩
  · exact ((register_spec_C2 Nat "svm" 1 2 []).2 (by decide)).1
  · exact ((register_spec_C2 Nat "svm" 1 2 []).2 (by decide)).2.2.2.1

theorem create_model_spec_C3_witness :
    create_model [("text", fun _ => (0 : Nat))] ⟨"text"⟩ = Except.ok 0 ∧
    (∃ s t, ("Invalid model configuration: Unknown model type "
        ++ pyRepr "absent").data = s ++ "absent".data ++ t) := by
  constructor
  · exact (create_model_spec_C3 Nat [("text", fun _ => 0)] ⟨"text"⟩).2.2 _ rfl
  · exact (create_model_spec_C3 Nat [] ⟨"absent"⟩).2.1 _ rfl

theorem mask_numerics_spec_C5_witness :
    mask_numerics "123" = "#NUM" ∧
    (mask_numerics "a1b2").data.length = "a1b2".data.length := by
  constructor
  · exact (mask_numerics_spec_C5.1 "123").1 (by decide) (by decide)
  · exact ((mask_numerics_spec_C5.1 "a1b2").2 (by decide)).1

theorem entity_seqs_equal_spec_C6_witness :
    entity_seqs_equal [⟨⟨"city"⟩, ⟨0, 6⟩, "london"⟩]
      [⟨⟨"city"⟩, ⟨0, 6⟩, "london"⟩] = true := by
  refine (entity_seqs_equal_spec_C6 _ _).mpr ⟨rfl, ?_⟩
  intro i hi hp
  have hi1 : i < 1 := by simpa using hi
  have h0 : i = 0 := by omega
  subst h0
  exact ⟨rfl, rfl, rfl⟩

theorem ingest_dynamic_gazetteer_skips_C8_witness :
    dlookup "color" (ingest_dynamic_gazetteer [("city", ⟨0, [("sf", 1)]⟩)]
      (some [("city", [("ny", 3)]), ("color", [("red", 1)])])) = none ∧
    dlookup "city" (ingest_dynamic_gazetteer [("city", ⟨0, [("sf", 1)]⟩)]
      (some [("city", [("ny", 3)]), ("color", [("red", 1)])])) = some ⟨0, [("sf", 1)]⟩ := by
  constructor
  · exact (ingest_dynamic_gazetteer_skips_C8 _ _ "color").1 (by decide)
  · exact (ingest_dynamic_gazetteer_skips_C8 _ _ "city").2 ⟨0, [("sf", 1)]⟩
      (by decide) (by decide)

theorem requires_spec_C9_witness :
    (requires "gazetteers" ⟨0, none⟩).requirements = some {"gazetteers"} ∧
    (requires "w_freq" (requires "gazetteers" ⟨0, none⟩)).requirements =
      some ({"gazetteers", "w_freq"} : Finset String) ∧
    requires "w_freq" (requires "gazetteers" ⟨0, none⟩) =
      requires "gazetteers" (requires "w_freq" ⟨0, none⟩) := by
  refine ⟨?_, ?_, ?_⟩
  · exact ((requires_spec_C9 ⟨0, none⟩ "gazetteers" "w_freq").1 rfl).1
  · exact ((requires_spec_C9 ⟨0, none⟩ "gazetteers" "w_freq").1 rfl).2
  · exact (requires_spec_C9 ⟨0, none⟩ "gazetteers" "w_freq").2
